import Mathlib

/-!
Shallow embedding of `unftp-sbe-iso` (src/lib.rs): a read-only libunftp
storage backend exposing an ISO 9660 disk image over FTP.

The embedding models the decoded volume objects produced by the external
`cdfs` crate (`DirectoryEntry`, `ISODirectory`, `ISOFileReader`) as pure
data, and translates `Storage::find` plus each `StorageBackend` operation
(`metadata`, `list`, `get`, `put`, `del`, `mkd`, `rename`, `rmd`, `cwd`)
into Lean functions over that data.  Fallible Rust code returning
`Result` is modelled with an explicit outcome type that also has a
variant for panics (`unwrap` on an `Err`), since the source reaches
`unwrap` in two places.
-/

namespace UnftpSbeIso

/-- Attributes that cdfs' `ExtraAttributes` exposes on every decoded entry:
`owner()` and `group()` return optional numeric ids, `modify_time()` a
timestamp (modelled as a plain `Nat`). -/
structure EntryAttrs where
  owner : Option Nat
  group : Option Nat
  modified : Nat
deriving DecidableEq, Repr

/-- A decoded directory entry: cdfs' `DirectoryEntry<File>` with its three
variants `Directory`, `File` and `Symlink`.

* A directory carries the identifier, its header length (`d.header().length`,
  used as the metadata size), attributes, and its `contents()` sequence: each
  child is the `Result` the decoder yields, modelled as `Option Entry` where
  `none` is a child record the decoder failed to parse.
* A file carries its content bytes; its `size()` is the number of bytes the
  reader yields, i.e. `content.length` here.
* A symlink carries its header length and attributes; it is never
  dereferenced by the backend. -/
inductive Entry where
  | directory (ident : String) (headerLength : Nat) (attrs : EntryAttrs)
      (children : List (Option Entry))
  | file (ident : String) (attrs : EntryAttrs) (content : List Nat)
  | symlink (ident : String) (headerLength : Nat) (attrs : EntryAttrs)

/-- cdfs' `ISODirectory<File>`: the directory payload `Storage::find` walks
through (`current_dir` in the source). -/
structure ISODirectory where
  ident : String
  headerLength : Nat
  attrs : EntryAttrs
  children : List (Option Entry)

/-- Wrap an `ISODirectory` back into the `DirectoryEntry::Directory` variant
(`Ok(DirectoryEntry::Directory(current_dir))` in the source). -/
def ISODirectory.toEntry (d : ISODirectory) : Entry :=
  Entry.directory d.ident d.headerLength d.attrs d.children

/-- `e.identifier()`. -/
def Entry.identifier : Entry → String
  | .directory i _ _ _ => i
  | .file i _ _ => i
  | .symlink i _ _ => i

/-- The size the backend projects for an entry: `d.header().length` for a
directory, `f.size()` for a file, `l.header().length` for a symlink. -/
def Entry.sizeBytes : Entry → Nat
  | .directory _ l _ _ => l
  | .file _ _ content => content.length
  | .symlink _ l _ => l

/-- `matches!(e, DirectoryEntry::Directory(_))`. -/
def Entry.isDir : Entry → Bool
  | .directory _ _ _ _ => true
  | _ => false

/-- `matches!(e, DirectoryEntry::Symlink(_))`. -/
def Entry.isSym : Entry → Bool
  | .symlink _ _ _ => true
  | _ => false

/-- `e.owner()` from `ExtraAttributes`. -/
def Entry.owner : Entry → Option Nat
  | .directory _ _ a _ => a.owner
  | .file _ a _ => a.owner
  | .symlink _ _ a => a.owner

/-- `e.group()` from `ExtraAttributes`. -/
def Entry.group : Entry → Option Nat
  | .directory _ _ a _ => a.group
  | .file _ a _ => a.group
  | .symlink _ _ a => a.group

/-- `e.modify_time()` from `ExtraAttributes`. -/
def Entry.modifyTime : Entry → Nat
  | .directory _ _ a _ => a.modified
  | .file _ a _ => a.modified
  | .symlink _ _ a => a.modified

/-- The unftp-core `ErrorKind` values the backend constructs, plus `ioError`
standing for whatever kind unftp-core's `From<std::io::Error>` conversion
produces when `File::open` on the image fails (that conversion lives in
unftp-core, outside this repository). -/
inductive ErrorKind where
  | permanentFileNotAvailable
  | transientFileNotAvailable
  | fileNameNotAllowedError
  | permissionDenied
  | ioError
deriving DecidableEq, Repr

/-- An unftp-core `Error`: a kind plus the message the backend attaches with
`Error::new` (empty for errors built with `Error::from(kind)`). -/
structure Err where
  kind : ErrorKind
  msg : String
deriving DecidableEq, Repr

/-- `Error::from(kind)`. -/
def Err.ofKind (k : ErrorKind) : Err := ⟨k, ""⟩

/-- The result of running one backend operation: a success value, a returned
`Err`, or a panic (the source reaches `unwrap()` on `Err` values in
`open_iso` and in `list`). -/
inductive Outcome (α : Type) where
  | ok (a : α)
  | err (e : Err)
  | panics (msg : String)

/-- Whether an outcome is a success. -/
def Outcome.isOk {α : Type} : Outcome α → Bool
  | .ok _ => true
  | _ => false

/-- The kind of the returned error, when the outcome is an error. -/
def Outcome.errKind {α : Type} : Outcome α → Option ErrorKind
  | .err e => some e.kind
  | _ => none

/-- A `std::path::Component` of the virtual path handed to the backend.
`Prefix` (Windows-only) is omitted; `RootDir`, `CurDir`, `ParentDir` and
`Normal` cover the inputs reachable here, and `find` treats every kind other
than `RootDir`/`Normal` identically (its `_` match arm). -/
inductive Component where
  | rootDir
  | curDir
  | parentDir
  | normal (s : String)
deriving DecidableEq, Repr

/-- ASCII case-folding of one character to its lower-case code point, the
per-byte folding `u8::eq_ignore_ascii_case` performs. -/
def asciiLowerNat (c : Char) : Nat :=
  if 65 ≤ c.toNat ∧ c.toNat ≤ 90 then c.toNat + 32 else c.toNat

/-- `str::eq_ignore_ascii_case`: equal length and ASCII-case-fold-equal
characters. -/
def eqIgnoreAsciiCase (a b : String) : Bool :=
  a.toList.map asciiLowerNat == b.toList.map asciiLowerNat

/-- `name.to_uppercase()` as applied to path components.  ISO 9660
identifiers are ASCII, so this is modelled as per-character ASCII
upper-casing (`Char.toUpper`). -/
def toUppercase (s : String) : String :=
  String.mk (s.toList.map Char.toUpper)

/-- The error for a path component `find` cannot interpret
(lib.rs lines 89-94). -/
def unsupportedPathError : Err :=
  ⟨ErrorKind.permanentFileNotAvailable, "Unsupported path component"⟩

/-- The error for a named component with no match in the current directory
(lib.rs lines 102-107). -/
def componentNotFoundError (name : String) : Err :=
  ⟨ErrorKind.transientFileNotAvailable,
    "Path component \u0027" ++ name ++ "\u0027 not found"⟩

/-- The error for an intermediate component that matched a non-directory
(lib.rs lines 119-124). -/
def notADirectoryError : Err :=
  ⟨ErrorKind.permanentFileNotAvailable,
    "Intermediate path component is not a directory"⟩

/-- The message of the panic raised by `unwrap()` on an `Err` value (the
dynamic description of the wrapped error is elided). -/
def unwrapPanicMsg : String := "called `Result::unwrap()` on an `Err` value"

/-- The child scan in `find`:
`current_dir.contents().filter_map(|e| e.ok()).find(|e| e.identifier().eq_ignore_ascii_case(&name))`.
Unparseable children (`none`) are skipped; the first case-insensitive
identifier match wins. -/
def lookupChild (children : List (Option Entry)) (name : String) : Option Entry :=
  (children.filterMap id).find? (fun e => eqIgnoreAsciiCase e.identifier name)

/-- The component-walking loop of `Storage::find` (lib.rs lines 83-129),
starting from `current_dir` with the remaining components.  `RootDir` is
skipped; a `Normal` component is upper-cased and looked up, the entry is
returned as-is when no components remain, otherwise the walk descends only
through a `Directory`; every other component kind fails immediately. -/
def findLoop : ISODirectory → List Component → Except Err Entry
  | current, [] => Except.ok current.toEntry
  | current, Component.rootDir :: rest => findLoop current rest
  | current, Component.normal s :: rest =>
    let name := toUppercase s
    match lookupChild current.children name with
    | none => Except.error (componentNotFoundError name)
    | some nextEntry =>
      if rest.isEmpty then Except.ok nextEntry
      else
        match nextEntry with
        | Entry.directory i l a cs => findLoop ⟨i, l, a, cs⟩ rest
        | _ => Except.error notADirectoryError
  | _, Component.curDir :: _ => Except.error unsupportedPathError
  | _, Component.parentDir :: _ => Except.error unsupportedPathError

/-- What opening and decoding the image at `iso_path` yields: `File::open`
fails, or `ISO9660::new` returns `Err`, or a decoded volume with its root
directory (`iso.root()`). -/
inductive ImageState where
  | openFails (msg : String)
  | undecodable
  | volume (root : ISODirectory)

/-- The backend struct.  The source stores `iso_path: PathBuf`; since every
operation opens that same path afresh, the state is modelled as what opening
and decoding the image yields. -/
structure Storage where
  image : ImageState

/-- `Storage::open_iso` (lib.rs lines 72-75): propagate the `File::open`
failure with `?`, then `ISO9660::new(file).unwrap()` — a decode failure
panics instead of being returned. -/
def Storage.openIso (st : Storage) : Outcome ISODirectory :=
  match st.image with
  | ImageState.openFails msg => Outcome.err ⟨ErrorKind.ioError, msg⟩
  | ImageState.undecodable => Outcome.panics unwrapPanicMsg
  | ImageState.volume root => Outcome.ok root

/-- Lift the pure walk result into an operation outcome. -/
def liftExcept {α : Type} : Except Err α → Outcome α
  | Except.ok a => Outcome.ok a
  | Except.error e => Outcome.err e

/-- `Storage::find` (lib.rs lines 77-130): open the image, then walk the
path components from the root directory. -/
def Storage.find (st : Storage) (path : List Component) : Outcome Entry :=
  match st.openIso with
  | Outcome.ok root => liftExcept (findLoop root path)
  | Outcome.err e => Outcome.err e
  | Outcome.panics m => Outcome.panics m

/-- The metadata projection `IsoMeta` (lib.rs lines 272-287). -/
structure IsoMeta where
  len : Nat
  dir : Bool
  sym : Bool
  group : Nat
  owner : Nat
  modified : Nat
deriving DecidableEq, Repr

/-- The `IsoMeta` value both `metadata` and `list` build from an entry
(lib.rs lines 143-155 and 177-191): size by variant, variant flags, and
owner/group defaulting to 0. -/
def projectMeta (e : Entry) : IsoMeta :=
  { len := e.sizeBytes
    dir := e.isDir
    sym := e.isSym
    group := e.group.getD 0
    owner := e.owner.getD 0
    modified := e.modifyTime }

/-- `StorageBackend::metadata` (lib.rs lines 137-156). -/
def Storage.metadata (st : Storage) (path : List Component) : Outcome IsoMeta :=
  match st.find path with
  | Outcome.ok entry => Outcome.ok (projectMeta entry)
  | Outcome.err e => Outcome.err e
  | Outcome.panics m => Outcome.panics m

/-- One row of a listing: `Fileinfo { path, metadata }` with the path set to
the child's identifier. -/
structure Fileinfo where
  path : String
  metadata : IsoMeta
deriving DecidableEq, Repr

/-- The enumeration loop in `list` (lib.rs lines 175-193): each child result
is `unwrap()`ed — a child the decoder failed to parse panics — and parsed
children are projected in on-disk order. -/
def listEntries : List (Option Entry) → Outcome (List Fileinfo)
  | [] => Outcome.ok []
  | none :: _ => Outcome.panics unwrapPanicMsg
  | some e :: rest =>
    match listEntries rest with
    | Outcome.ok tail => Outcome.ok ({ path := e.identifier, metadata := projectMeta e } :: tail)
    | other => other

/-- `StorageBackend::list` (lib.rs lines 158-195): resolve, require a
directory (file and symlink yield `FileNameNotAllowedError`), then enumerate
the children. -/
def Storage.list (st : Storage) (path : List Component) : Outcome (List Fileinfo) :=
  match st.find path with
  | Outcome.ok (Entry.directory _ _ _ children) => listEntries children
  | Outcome.ok (Entry.file _ _ _) => Outcome.err (Err.ofKind ErrorKind.fileNameNotAllowedError)
  | Outcome.ok (Entry.symlink _ _ _) => Outcome.err (Err.ofKind ErrorKind.fileNameNotAllowedError)
  | Outcome.err e => Outcome.err e
  | Outcome.panics m => Outcome.panics m

/-- `StorageBackend::get` (lib.rs lines 197-234): resolve, require a file,
seek the decoder's reader to `start_pos` when it is positive (the reader's
seek to an absolute offset succeeds, an out-of-range offset just leaves
nothing to read), then read everything that remains into a buffer. -/
def Storage.get (st : Storage) (path : List Component) (startPos : Nat) : Outcome (List Nat) :=
  match st.find path with
  | Outcome.ok (Entry.file _ _ content) =>
    if startPos > 0 then Outcome.ok (content.drop startPos)
    else Outcome.ok (content.drop 0)
  | Outcome.ok (Entry.directory _ _ _ _) =>
    Outcome.err (Err.ofKind ErrorKind.permanentFileNotAvailable)
  | Outcome.ok (Entry.symlink _ _ _) =>
    Outcome.err (Err.ofKind ErrorKind.permanentFileNotAvailable)
  | Outcome.err e => Outcome.err e
  | Outcome.panics m => Outcome.panics m

/-- `StorageBackend::put` (lib.rs lines 236-244): unconditionally
permission-denied.  The unused user, input stream, path and offset are kept
as parameters. -/
def Storage.put (_st : Storage) (_user : Nat) (_input : List Nat)
    (_path : List Component) (_startPos : Nat) : Outcome Nat :=
  Outcome.err (Err.ofKind ErrorKind.permissionDenied)

/-- `StorageBackend::del` (lib.rs lines 246-248). -/
def Storage.del (_st : Storage) (_user : Nat) (_path : List Component) : Outcome Unit :=
  Outcome.err (Err.ofKind ErrorKind.permissionDenied)

/-- `StorageBackend::mkd` (lib.rs lines 250-252). -/
def Storage.mkd (_st : Storage) (_user : Nat) (_path : List Component) : Outcome Unit :=
  Outcome.err (Err.ofKind ErrorKind.permissionDenied)

/-- `StorageBackend::rename` (lib.rs lines 254-261). -/
def Storage.rename (_st : Storage) (_user : Nat) (_from : List Component)
    (_to : List Component) : Outcome Unit :=
  Outcome.err (Err.ofKind ErrorKind.permissionDenied)

/-- `StorageBackend::rmd` (lib.rs lines 263-265). -/
def Storage.rmd (_st : Storage) (_user : Nat) (_path : List Component) : Outcome Unit :=
  Outcome.err (Err.ofKind ErrorKind.permissionDenied)

/-- `StorageBackend::cwd` (lib.rs lines 267-269): `find` with the resolved
entry discarded. -/
def Storage.cwd (st : Storage) (path : List Component) : Outcome Unit :=
  match st.find path with
  | Outcome.ok _ => Outcome.ok ()
  | Outcome.err e => Outcome.err e
  | Outcome.panics m => Outcome.panics m

/-- The `Metadata` trait implementation for `IsoMeta`
(lib.rs lines 289-317), one function per trait method. -/
def MetadataImpl.len (m : IsoMeta) : Nat := m.len

/-- `is_dir` returns the `dir` flag. -/
def MetadataImpl.is_dir (m : IsoMeta) : Bool := m.dir

/-- `is_file` returns the negated `dir` flag. -/
def MetadataImpl.is_file (m : IsoMeta) : Bool := !m.dir

/-- `is_symlink` returns `false` unconditionally (lib.rs lines 302-304); the
`sym` field is not consulted. -/
def MetadataImpl.is_symlink (_m : IsoMeta) : Bool := false

/-- `modified` returns `Ok(self.modified)`. -/
def MetadataImpl.modified (m : IsoMeta) : Except Err Nat := Except.ok m.modified

/-- `gid` returns the `group` field. -/
def MetadataImpl.gid (m : IsoMeta) : Nat := m.group

/-- `uid` returns the `owner` field. -/
def MetadataImpl.uid (m : IsoMeta) : Nat := m.owner

/-- Whether two path components are equal up to ASCII case: the same
component kind, with normal components related by `eq_ignore_ascii_case`.
This is the hypothesis of claim C4, not a function of the source. -/
def Component.caseEq : Component → Component → Bool
  | Component.rootDir, Component.rootDir => true
  | Component.curDir, Component.curDir => true
  | Component.parentDir, Component.parentDir => true
  | Component.normal a, Component.normal b => eqIgnoreAsciiCase a b
  | _, _ => false

/-- Whether a component is neither the root component nor a normal
component, i.e. one that `find` rejects through its `_` match arm (the
subject of claim C6). -/
def Component.isUnsupported : Component → Bool
  | Component.curDir => true
  | Component.parentDir => true
  | _ => false

/-- Attributes with no owner, no group and epoch modification time, used by
the concrete test volumes below. -/
def attrs0 : EntryAttrs := ⟨none, none, 0⟩

/-- A two-byte file entry `B.TXT`. -/
def fileB : Entry := Entry.file "B.TXT" attrs0 [104, 105]

/-- A symlink entry `LINK`. -/
def linkL : Entry := Entry.symlink "LINK" 10 attrs0

/-- A directory entry `A` holding `fileB`. -/
def dirA : Entry := Entry.directory "A" 2048 attrs0 [some fileB]

/-- The root directory of the main test volume, with children `A` and
`LINK`. -/
def rootMain : ISODirectory := ⟨"", 2048, attrs0, [some dirA, some linkL]⟩

/-- A backend over the main test volume. -/
def stMain : Storage := ⟨ImageState.volume rootMain⟩

/-- A backend over a volume whose root has one child record the decoder
failed to parse, followed by a parsed file. -/
def stBadChild : Storage := ⟨ImageState.volume ⟨"", 2048, attrs0, [none, some fileB]⟩⟩

/-- A backend over a volume whose root directory has no children. -/
def stEmpty : Storage := ⟨ImageState.volume ⟨"", 2048, attrs0, []⟩⟩

/-- A backend whose image opens but does not decode as a valid volume. -/
def stUndecodable : Storage := ⟨ImageState.undecodable⟩

/-- A backend whose image file cannot be opened. -/
def stUnopenable : Storage := ⟨ImageState.openFails "No such file or directory"⟩

/-! Helper lemmas about ASCII case folding. -/

theorem char_toNat_inj {x y : Char} (h : x.toNat = y.toNat) : x = y :=
  Char.ext_iff.mpr (UInt32.ext h)

theorem toUpper_eq_self (x : Char) (h : ¬ (97 ≤ x.toNat ∧ x.toNat ≤ 122)) :
    x.toUpper = x := by
  simp only [Char.toUpper]
  split
  · rename_i hc
    simp only [ge_iff_le, Bool.and_eq_true, decide_eq_true_eq] at hc
    omega
  · rfl

theorem toUpper_eq_ofNat (x : Char) (h : 97 ≤ x.toNat ∧ x.toNat ≤ 122) :
    x.toUpper = Char.ofNat (x.toNat - 32) := by
  simp only [Char.toUpper]
  split
  · rfl
  · rename_i hc
    simp only [ge_iff_le, Bool.and_eq_true, decide_eq_true_eq] at hc
    omega

/-- Characters with the same ASCII case folding have the same ASCII
upper-casing. -/
theorem toUpper_congr (x y : Char) (h : asciiLowerNat x = asciiLowerNat y) :
    x.toUpper = y.toUpper := by
  unfold asciiLowerNat at h
  by_cases hx : 65 ≤ x.toNat ∧ x.toNat ≤ 90 <;> by_cases hy : 65 ≤ y.toNat ∧ y.toNat ≤ 90
  · rw [if_pos hx, if_pos hy] at h
    exact congrArg Char.toUpper (char_toNat_inj (by omega))
  · rw [if_pos hx, if_neg hy] at h
    rw [toUpper_eq_self x (by omega), toUpper_eq_ofNat y (by omega)]
    have hxy : y.toNat - 32 = x.toNat := by omega
    rw [hxy, Char.ofNat_toNat]
  · rw [if_neg hx, if_pos hy] at h
    rw [toUpper_eq_ofNat x (by omega), toUpper_eq_self y (by omega)]
    have hxy : x.toNat - 32 = y.toNat := by omega
    rw [hxy, Char.ofNat_toNat]
  · rw [if_neg hx, if_neg hy] at h
    exact congrArg Char.toUpper (char_toNat_inj h)

theorem map_toUpper_congr : ∀ (xs ys : List Char),
    xs.map asciiLowerNat = ys.map asciiLowerNat →
    xs.map Char.toUpper = ys.map Char.toUpper
  | [], [], _ => rfl
  | x :: xs, y :: ys, h => by
    simp only [List.map_cons, List.cons.injEq] at h ⊢
    exact ⟨toUpper_congr x y h.1, map_toUpper_congr xs ys h.2⟩
  | [], _ :: _, h => by simp at h
  | _ :: _, [], h => by simp at h

/-- `eq_ignore_ascii_case`-equal strings have the same upper-casing. -/
theorem toUppercase_congr {a b : String} (h : eqIgnoreAsciiCase a b = true) :
    toUppercase a = toUppercase b := by
  unfold eqIgnoreAsciiCase at h
  unfold toUppercase
  exact congrArg String.mk (map_toUpper_congr _ _ (by exact beq_iff_eq.mp h))


/-- One unfolding step of `findLoop` at a normal component. -/
theorem findLoop_normal (d : ISODirectory) (s : String) (rest : List Component) :
    findLoop d (Component.normal s :: rest) =
      (match lookupChild d.children (toUppercase s) with
      | none => Except.error (componentNotFoundError (toUppercase s))
      | some nextEntry =>
        if rest.isEmpty then Except.ok nextEntry
        else match nextEntry with
          | Entry.directory i l a cs => findLoop ⟨i, l, a, cs⟩ rest
          | _ => Except.error notADirectoryError) := rfl

/-- The walk sends component lists that are equal up to ASCII case to the
same result: upper-casing collapses the case difference before any
comparison or error message is produced. -/
theorem findLoop_congr_case (p q : List Component)
    (h : List.Forall₂ (fun a b => Component.caseEq a b = true) p q) :
    ∀ d : ISODirectory, findLoop d p = findLoop d q := by
  induction h with
  | nil => intro d; rfl
  | @cons a b p2 q2 hab htail ih =>
    intro d
    have hlen : p2.isEmpty = q2.isEmpty := by
      cases htail <;> rfl
    cases a <;> cases b <;> simp only [Component.caseEq, Bool.false_eq_true] at hab
    · simpa only [findLoop] using ih d
    · rfl
    · rfl
    · rename_i s t
      have hname : toUppercase s = toUppercase t := toUppercase_congr hab
      rw [findLoop_normal, findLoop_normal, hname, hlen]
      cases hlk : lookupChild d.children (toUppercase t) with
      | none => rfl
      | some e =>
        cases hq : q2.isEmpty with
        | true => rfl
        | false =>
          simp only [Bool.false_eq_true, if_false]
          cases e with
          | directory i l a2 cs => exact ih ⟨i, l, a2, cs⟩
          | file i a2 c => rfl
          | symlink i l a2 => rfl

/-- When every child parses, the enumeration of `list` projects each child
in order. -/
theorem listEntries_map_some : ∀ kids : List Entry,
    listEntries (kids.map Option.some) =
      Outcome.ok (kids.map (fun e => { path := e.identifier, metadata := projectMeta e }))
  | [] => rfl
  | e :: kids => by
    simp only [List.map_cons, listEntries, listEntries_map_some kids]

/-- When some child failed to parse, the enumeration of `list` panics in
`unwrap`. -/
theorem listEntries_none_mem : ∀ cs : List (Option Entry), Option.none ∈ cs →
    listEntries cs = Outcome.panics unwrapPanicMsg
  | none :: _, _ => rfl
  | some e :: rest, h => by
    have hr : Option.none ∈ rest := by
      cases h with
      | tail _ h2 => exact h2
    have hrec : listEntries rest = Outcome.panics unwrapPanicMsg :=
      listEntries_none_mem rest hr
    simp only [listEntries, hrec]

/-- Decomposition of the walk: when a path prefix walks to a directory,
walking the concatenation with a non-empty suffix continues from that
directory. -/
theorem findLoop_append : ∀ (pre : List Component) (d : ISODirectory)
    (suffix : List Component) (i : String) (l : Nat) (a : EntryAttrs)
    (cs : List (Option Entry)),
    suffix.isEmpty = false →
    findLoop d pre = Except.ok (Entry.directory i l a cs) →
    findLoop d (pre ++ suffix) = findLoop ⟨i, l, a, cs⟩ suffix
  | [], d, suffix, i, l, a, cs, _, h => by
    cases d with
    | mk di dl da dc =>
      have he : Entry.directory di dl da dc = Entry.directory i l a cs := by
        injection h
      injection he with e1 e2 e3 e4
      subst e1; subst e2; subst e3; subst e4
      rfl
  | Component.rootDir :: pre, d, suffix, i, l, a, cs, hs, h => by
    simp only [findLoop] at h
    simp only [List.cons_append, findLoop]
    exact findLoop_append pre d suffix i l a cs hs h
  | Component.curDir :: pre, d, suffix, i, l, a, cs, _, h => by
    simp [findLoop] at h
  | Component.parentDir :: pre, d, suffix, i, l, a, cs, _, h => by
    simp [findLoop] at h
  | [Component.normal s], d, suffix, i, l, a, cs, hs, h => by
    rw [findLoop_normal] at h
    rw [List.cons_append, List.nil_append, findLoop_normal]
    cases hlk : lookupChild d.children (toUppercase s) with
    | none => rw [hlk] at h; simp at h
    | some e =>
      rw [hlk] at h
      have h2 : (Except.ok e : Except Err Entry) = Except.ok (Entry.directory i l a cs) := h
      have he : e = Entry.directory i l a cs := by injection h2
      subst he
      cases suffix with
      | nil => simp at hs
      | cons c2 rest2 => rfl
  | Component.normal s :: p1 :: pre, d, suffix, i, l, a, cs, hs, h => by
    rw [findLoop_normal] at h
    rw [List.cons_append, findLoop_normal]
    cases hlk : lookupChild d.children (toUppercase s) with
    | none => rw [hlk] at h; simp at h
    | some e =>
      rw [hlk] at h
      cases e with
      | directory i2 l2 a2 cs2 =>
        have h2 : findLoop ⟨i2, l2, a2, cs2⟩ (p1 :: pre) = Except.ok (Entry.directory i l a cs) := h
        exact findLoop_append (p1 :: pre) ⟨i2, l2, a2, cs2⟩ suffix i l a cs hs h2
      | file i2 a2 c2 =>
        have h2 : (Except.error notADirectoryError : Except Err Entry)
            = Except.ok (Entry.directory i l a cs) := h
        exact absurd h2 (by simp)
      | symlink i2 l2 a2 =>
        have h2 : (Except.error notADirectoryError : Except Err Entry)
            = Except.ok (Entry.directory i l a cs) := h
        exact absurd h2 (by simp)

/-- A component list containing an unsupported component never walks to a
resolved entry. -/
theorem findLoop_no_ok_of_unsupported : ∀ (comps : List Component) (d : ISODirectory),
    (∃ c ∈ comps, Component.isUnsupported c = true) →
    ∀ e : Entry, findLoop d comps ≠ Except.ok e
  | [], _, h, _ => by simp at h
  | comp :: rest, d, h, e => by
    cases comp with
    | rootDir =>
      have hr : ∃ c ∈ rest, Component.isUnsupported c = true := by
        rcases h with ⟨c, hc, hu⟩
        cases hc with
        | head => simp [Component.isUnsupported] at hu
        | tail _ h2 => exact ⟨c, h2, hu⟩
      simpa only [findLoop] using findLoop_no_ok_of_unsupported rest d hr e
    | curDir => simp [findLoop]
    | parentDir => simp [findLoop]
    | normal s =>
      have hr : ∃ c ∈ rest, Component.isUnsupported c = true := by
        rcases h with ⟨c, hc, hu⟩
        cases hc with
        | head => simp [Component.isUnsupported] at hu
        | tail _ h2 => exact ⟨c, h2, hu⟩
      have hne : rest.isEmpty = false := by
        rcases hr with ⟨c, hc, _⟩
        cases rest with
        | nil => cases hc
        | cons _ _ => rfl
      rw [findLoop_normal]
      cases hlk : lookupChild d.children (toUppercase s) with
      | none => simp
      | some e2 =>
        rw [hne]
        simp only [Bool.false_eq_true, if_false]
        cases e2 with
        | directory i l a cs => exact findLoop_no_ok_of_unsupported rest ⟨i, l, a, cs⟩ hr e
        | file _ _ _ => simp
        | symlink _ _ _ => simp

/-- C1 counterexample: on a volume whose root directory has a child entry
the decoder failed to parse, `list` of the root path panics in
`entry.unwrap()` instead of skipping that child and returning the projected
pair of the remaining parsed child, so the enclosing operation does abort. -/
theorem c1_counterexample :
    Storage.list stBadChild [] = Outcome.panics unwrapPanicMsg ∧
    (Storage.list stBadChild []).isOk = false :=
  ⟨rfl, rfl⟩

/-- C1 (amended): for every path that resolves to a Directory, `list`
returns the projected (name, Metadata) pairs of the children in enumeration
order when every child parses; but a child entry the decoder failed to
parse is not skipped — the enumeration unwraps each child result, so a
parse failure aborts the call with a panic.  (Only the resolver scan inside
`find` skips parse failures.) -/
theorem c1_list_amended (st : Storage) (path : List Component) (i : String)
    (l : Nat) (a : EntryAttrs) (children : List (Option Entry))
    (h : st.find path = Outcome.ok (Entry.directory i l a children)) :
    (∀ kids : List Entry, children = kids.map Option.some →
      st.list path =
        Outcome.ok (kids.map (fun e => { path := e.identifier, metadata := projectMeta e }))) ∧
    (Option.none ∈ children → st.list path = Outcome.panics unwrapPanicMsg) := by
  constructor
  · intro kids hk
    subst hk
    unfold Storage.list
    rw [h]
    exact listEntries_map_some kids
  · intro hn
    unfold Storage.list
    rw [h]
    exact listEntries_none_mem children hn

/-- Witness for C1 (amended): listing the root of the main volume returns
its two projected children; listing the root of the bad-child volume
panics. -/
theorem c1_list_amended_witness :
    Storage.list stMain [] =
      Outcome.ok [{ path := "A", metadata := projectMeta dirA },
                  { path := "LINK", metadata := projectMeta linkL }] ∧
    Storage.list stBadChild [] = Outcome.panics unwrapPanicMsg :=
  ⟨(c1_list_amended stMain [] "" 2048 attrs0 [some dirA, some linkL] rfl).1
      [dirA, linkL] rfl,
   (c1_list_amended stBadChild [] "" 2048 attrs0 [none, some fileB] rfl).2
      (by simp)⟩

/-- C2: all five mutating operations (`put`, `del`, `mkd`, `rename`, `rmd`)
fail with `PermissionDenied` for every backend state — any image, openable,
undecodable or not — every user and every path, including nonexistent ones;
since the result is the same constant for every volume state, no existence
check or volume access precedes the failure. -/
theorem c2_mutating_ops_permission_denied (st : Storage) (user : Nat)
    (input : List Nat) (path other : List Component) (startPos : Nat) :
    st.put user input path startPos = Outcome.err (Err.ofKind ErrorKind.permissionDenied) ∧
    st.del user path = Outcome.err (Err.ofKind ErrorKind.permissionDenied) ∧
    st.mkd user path = Outcome.err (Err.ofKind ErrorKind.permissionDenied) ∧
    st.rename user path other = Outcome.err (Err.ofKind ErrorKind.permissionDenied) ∧
    st.rmd user path = Outcome.err (Err.ofKind ErrorKind.permissionDenied) :=
  ⟨rfl, rfl, rfl, rfl, rfl⟩

/-- C3: when the image opens and decodes to a volume, resolving the empty
path or the path consisting of the bare root component always succeeds and
yields the volume root directory, which is a Directory entry. -/
theorem c3_root_resolves (st : Storage) (root : ISODirectory)
    (h : st.image = ImageState.volume root) :
    st.find [] = Outcome.ok root.toEntry ∧
    st.find [Component.rootDir] = Outcome.ok root.toEntry ∧
    root.toEntry.isDir = true := by
  refine ⟨?_, ?_, rfl⟩ <;>
    · unfold Storage.find Storage.openIso
      rw [h]
      rfl

/-- Witness for C3 at the main test volume. -/
theorem c3_root_resolves_witness :
    Storage.find stMain [] = Outcome.ok rootMain.toEntry ∧
    Storage.find stMain [Component.rootDir] = Outcome.ok rootMain.toEntry ∧
    rootMain.toEntry.isDir = true :=
  c3_root_resolves stMain rootMain rfl

/-- C4: resolving two paths whose component lists are equal up to ASCII
case against the same backend yields the same entry or the same classified
error. -/
theorem c4_case_insensitive (st : Storage) (p q : List Component)
    (h : List.Forall₂ (fun a b => Component.caseEq a b = true) p q) :
    st.find p = st.find q := by
  unfold Storage.find
  cases st.openIso with
  | ok root => exact congrArg liftExcept (findLoop_congr_case p q h root)
  | err e => rfl
  | panics m => rfl

/-- Witness for C4: `/A/b.TXT` and `/a/B.txt` resolve identically on the
main test volume. -/
theorem c4_case_insensitive_witness :
    Storage.find stMain [Component.rootDir, Component.normal "A", Component.normal "b.TXT"] =
      Storage.find stMain [Component.rootDir, Component.normal "a", Component.normal "B.txt"] :=
  c4_case_insensitive stMain _ _
    (List.Forall₂.cons rfl (List.Forall₂.cons (by decide)
      (List.Forall₂.cons (by decide) List.Forall₂.nil)))

/-- C5: when a path prefix resolves to a directory in which a non-final
normal component matches a File or Symlink entry, the whole resolution
fails with the not-a-directory error, whose kind is the permanent
not-available classification; the walk never descends past that entry. -/
theorem c5_intermediate_nondirectory (st : Storage) (pre : List Component)
    (c : String) (rest : List Component) (i : String) (l : Nat) (a : EntryAttrs)
    (cs : List (Option Entry)) (e : Entry)
    (hrest : rest ≠ [])
    (hpre : st.find pre = Outcome.ok (Entry.directory i l a cs))
    (hmatch : lookupChild cs (toUppercase c) = some e)
    (hnotdir : e.isDir = false) :
    st.find (pre ++ Component.normal c :: rest) = Outcome.err notADirectoryError ∧
    notADirectoryError.kind = ErrorKind.permanentFileNotAvailable := by
  refine ⟨?_, rfl⟩
  unfold Storage.find at hpre ⊢
  cases hoi : st.openIso with
  | err e2 =>
    rw [hoi] at hpre
    have hp2 : (Outcome.err e2 : Outcome Entry)
        = Outcome.ok (Entry.directory i l a cs) := hpre
    exact absurd hp2 (fun hx => by cases hx)
  | panics m =>
    rw [hoi] at hpre
    have hp2 : (Outcome.panics m : Outcome Entry)
        = Outcome.ok (Entry.directory i l a cs) := hpre
    exact absurd hp2 (fun hx => by cases hx)
  | ok root =>
    rw [hoi] at hpre
    have hpre2 : liftExcept (findLoop root pre)
        = Outcome.ok (Entry.directory i l a cs) := hpre
    have hfl : findLoop root pre = Except.ok (Entry.directory i l a cs) := by
      cases hfe : findLoop root pre with
      | ok e3 =>
        rw [hfe] at hpre2
        have h2 : (Outcome.ok e3 : Outcome Entry)
            = Outcome.ok (Entry.directory i l a cs) := hpre2
        have h3 : e3 = Entry.directory i l a cs := by injection h2
        rw [h3]
      | error e3 =>
        rw [hfe] at hpre2
        have h2 : (Outcome.err e3 : Outcome Entry)
            = Outcome.ok (Entry.directory i l a cs) := hpre2
        exact absurd h2 (fun hx => by cases hx)
    have happ := findLoop_append pre root (Component.normal c :: rest) i l a cs rfl hfl
    show liftExcept (findLoop root (pre ++ Component.normal c :: rest))
        = Outcome.err notADirectoryError
    rw [happ, findLoop_normal, hmatch]
    cases rest with
    | nil => exact absurd rfl hrest
    | cons r rs =>
      cases e with
      | directory i2 l2 a2 cs2 => simp [Entry.isDir] at hnotdir
      | file i2 a2 c2 => rfl
      | symlink i2 l2 a2 => rfl

/-- Witness for C5: `/a/b.txt/X` fails with the not-a-directory error on
the main test volume, because `b.txt` matches a file. -/
theorem c5_intermediate_nondirectory_witness :
    Storage.find stMain ([Component.rootDir, Component.normal "a"] ++
        Component.normal "b.txt" :: [Component.normal "X"]) =
      Outcome.err notADirectoryError ∧
    notADirectoryError.kind = ErrorKind.permanentFileNotAvailable :=
  c5_intermediate_nondirectory stMain [Component.rootDir, Component.normal "a"]
    "b.txt" [Component.normal "X"] "A" 2048 attrs0 [some fileB] fileB
    (by simp) rfl rfl rfl

/-- C6 counterexample: on the empty volume the path `X/..` contains a
parent-directory component, yet resolution fails with the transient
component-not-found error for `X`, not with the unsupported-path-component
error the claim requires. -/
theorem c6_counterexample :
    Storage.find stEmpty [Component.normal "X", Component.parentDir] =
      Outcome.err (componentNotFoundError "X") ∧
    componentNotFoundError "X" ≠ unsupportedPathError :=
  ⟨rfl, by decide⟩

/-- C6 (amended): a path containing a parent-directory reference or any
other non-root, non-normal component never returns a resolved entry; the
walk fails with the unsupported-path-component error as soon as it reaches
such a component (in particular immediately when it comes first), though an
earlier component may already have failed with a different error, such as
component-not-found. -/
theorem c6_unsupported_never_resolves (st : Storage) (comps : List Component)
    (h : ∃ c ∈ comps, Component.isUnsupported c = true) :
    (∀ e : Entry, st.find comps ≠ Outcome.ok e) ∧
    (∀ (root : ISODirectory) (c : Component) (rest : List Component),
      st.image = ImageState.volume root → Component.isUnsupported c = true →
      st.find (c :: rest) = Outcome.err unsupportedPathError) := by
  constructor
  · intro e
    unfold Storage.find
    cases hoi : st.openIso with
    | ok root =>
      show liftExcept (findLoop root comps) ≠ Outcome.ok e
      cases hfe : findLoop root comps with
      | ok e2 => exact absurd hfe (findLoop_no_ok_of_unsupported comps root h e2)
      | error e2 =>
        intro hx
        have h2 : (Outcome.err e2 : Outcome Entry) = Outcome.ok e := hx
        cases h2
    | err e2 =>
      intro hx
      have h2 : (Outcome.err e2 : Outcome Entry) = Outcome.ok e := hx
      cases h2
    | panics m =>
      intro hx
      have h2 : (Outcome.panics m : Outcome Entry) = Outcome.ok e := hx
      cases h2
  · intro root c rest hst hc
    unfold Storage.find Storage.openIso
    rw [hst]
    cases c with
    | curDir => rfl
    | parentDir => rfl
    | rootDir => simp [Component.isUnsupported] at hc
    | normal s => simp [Component.isUnsupported] at hc

/-- Witness for C6 (amended): the path `..` on the empty volume does not
resolve, failing with the unsupported-path-component error. -/
theorem c6_unsupported_never_resolves_witness :
    Storage.find stEmpty [Component.parentDir] ≠ Outcome.ok fileB ∧
    Storage.find stEmpty [Component.parentDir] = Outcome.err unsupportedPathError :=
  ⟨(c6_unsupported_never_resolves stEmpty [Component.parentDir]
      ⟨Component.parentDir, List.Mem.head _, rfl⟩).1 fileB,
   (c6_unsupported_never_resolves stEmpty [Component.parentDir]
      ⟨Component.parentDir, List.Mem.head _, rfl⟩).2 ⟨"", 2048, attrs0, []⟩
      Component.parentDir [] rfl rfl⟩

/-- C7: for every path resolving to a File with content bytes B, `get` at
offset 0 streams exactly B, and at any offset k not exceeding the file
length it streams B with the first k bytes removed. -/
theorem c7_get_bytes (st : Storage) (path : List Component) (i : String)
    (a : EntryAttrs) (content : List Nat)
    (h : st.find path = Outcome.ok (Entry.file i a content)) :
    st.get path 0 = Outcome.ok content ∧
    ∀ k : Nat, k ≤ content.length → st.get path k = Outcome.ok (content.drop k) := by
  have hbase : ∀ k : Nat, st.get path k = Outcome.ok (content.drop k) := by
    intro k
    have hred : st.get path k =
        if k > 0 then Outcome.ok (content.drop k) else Outcome.ok (content.drop 0) := by
      unfold Storage.get
      rw [h]
    rw [hred]
    by_cases hk : k > 0
    · rw [if_pos hk]
    · rw [if_neg hk]
      have hk0 : k = 0 := by omega
      rw [hk0]
  exact ⟨by simpa using hbase 0, fun k _ => hbase k⟩

/-- Witness for C7: reading `/a/b.txt` of the main volume at offsets 0
and 1. -/
theorem c7_get_bytes_witness :
    Storage.get stMain [Component.rootDir, Component.normal "a", Component.normal "b.txt"] 0 =
      Outcome.ok [104, 105] ∧
    Storage.get stMain [Component.rootDir, Component.normal "a", Component.normal "b.txt"] 1 =
      Outcome.ok [105] :=
  ⟨(c7_get_bytes stMain [Component.rootDir, Component.normal "a", Component.normal "b.txt"]
      "B.TXT" attrs0 [104, 105] rfl).1,
   (c7_get_bytes stMain [Component.rootDir, Component.normal "a", Component.normal "b.txt"]
      "B.TXT" attrs0 [104, 105] rfl).2 1 (by decide)⟩

/-- C8: `list` on a path that resolves to a File or Symlink entry fails
with the file-name-not-allowed error, so no listing — empty or partial — is
returned. -/
theorem c8_list_non_directory (st : Storage) (path : List Component) :
    (∀ (i : String) (a : EntryAttrs) (content : List Nat),
      st.find path = Outcome.ok (Entry.file i a content) →
      st.list path = Outcome.err (Err.ofKind ErrorKind.fileNameNotAllowedError)) ∧
    (∀ (i : String) (l : Nat) (a : EntryAttrs),
      st.find path = Outcome.ok (Entry.symlink i l a) →
      st.list path = Outcome.err (Err.ofKind ErrorKind.fileNameNotAllowedError)) := by
  constructor
  · intro i a content h
    unfold Storage.list
    rw [h]
  · intro i l a h
    unfold Storage.list
    rw [h]

/-- Witness for C8: listing the file `/a/b.txt` and the symlink `/link` of
the main volume both fail with the file-name-not-allowed error. -/
theorem c8_list_non_directory_witness :
    Storage.list stMain [Component.rootDir, Component.normal "a", Component.normal "b.txt"]
      = Outcome.err (Err.ofKind ErrorKind.fileNameNotAllowedError) ∧
    Storage.list stMain [Component.normal "link"]
      = Outcome.err (Err.ofKind ErrorKind.fileNameNotAllowedError) :=
  ⟨(c8_list_non_directory stMain
      [Component.rootDir, Component.normal "a", Component.normal "b.txt"]).1
      "B.TXT" attrs0 [104, 105] rfl,
   (c8_list_non_directory stMain [Component.normal "link"]).2 "LINK" 10 attrs0 rfl⟩

/-- C9: the metadata projection of an entry resolved as a Symlink carries
`sym = true`, yet the `is_symlink` accessor reports `false` for it — as it
does for every metadata value. -/
theorem c9_symlink_reported_false (st : Storage) (path : List Component)
    (i : String) (l : Nat) (a : EntryAttrs)
    (h : st.find path = Outcome.ok (Entry.symlink i l a)) :
    st.metadata path = Outcome.ok (projectMeta (Entry.symlink i l a)) ∧
    (projectMeta (Entry.symlink i l a)).sym = true ∧
    MetadataImpl.is_symlink (projectMeta (Entry.symlink i l a)) = false ∧
    ∀ m : IsoMeta, MetadataImpl.is_symlink m = false := by
  refine ⟨?_, rfl, rfl, fun m => rfl⟩
  unfold Storage.metadata
  rw [h]

/-- Witness for C9 at the symlink `/link` of the main volume. -/
theorem c9_symlink_reported_false_witness :
    Storage.metadata stMain [Component.normal "link"]
      = Outcome.ok (projectMeta (Entry.symlink "LINK" 10 attrs0)) ∧
    (projectMeta (Entry.symlink "LINK" 10 attrs0)).sym = true ∧
    MetadataImpl.is_symlink (projectMeta (Entry.symlink "LINK" 10 attrs0)) = false :=
  ⟨(c9_symlink_reported_false stMain [Component.normal "link"] "LINK" 10 attrs0 rfl).1,
   (c9_symlink_reported_false stMain [Component.normal "link"] "LINK" 10 attrs0 rfl).2.1,
   (c9_symlink_reported_false stMain [Component.normal "link"] "LINK" 10 attrs0 rfl).2.2.1⟩

/-- C10: `open_iso` unwraps the decoder's volume-construction result, so
when the image file opens but does not decode as a valid volume, every
volume-accessing operation (`find` and the operations built on it:
`metadata`, `list`, `get`, `cwd`) panics instead of returning a classified
error, while a failure to open the image file itself is surfaced as an I/O
error. -/
theorem c10_undecodable_panics (st : Storage) :
    (st.image = ImageState.undecodable →
      ∀ (path : List Component) (k : Nat),
        st.find path = Outcome.panics unwrapPanicMsg ∧
        st.metadata path = Outcome.panics unwrapPanicMsg ∧
        st.list path = Outcome.panics unwrapPanicMsg ∧
        st.get path k = Outcome.panics unwrapPanicMsg ∧
        st.cwd path = Outcome.panics unwrapPanicMsg) ∧
    (∀ (msg : String) (path : List Component),
      st.image = ImageState.openFails msg →
      st.find path = Outcome.err ⟨ErrorKind.ioError, msg⟩) := by
  constructor
  · intro h path k
    have hf : st.find path = Outcome.panics unwrapPanicMsg := by
      unfold Storage.find Storage.openIso
      rw [h]
    have hm : st.metadata path = Outcome.panics unwrapPanicMsg := by
      unfold Storage.metadata
      rw [hf]
    have hl : st.list path = Outcome.panics unwrapPanicMsg := by
      unfold Storage.list
      rw [hf]
    have hg : st.get path k = Outcome.panics unwrapPanicMsg := by
      unfold Storage.get
      rw [hf]
    have hc : st.cwd path = Outcome.panics unwrapPanicMsg := by
      unfold Storage.cwd
      rw [hf]
    exact ⟨hf, hm, hl, hg, hc⟩
  · intro msg path h
    unfold Storage.find Storage.openIso
    rw [h]

/-- Witness for C10 on the undecodable and unopenable backends. -/
theorem c10_undecodable_panics_witness :
    Storage.find stUndecodable [] = Outcome.panics unwrapPanicMsg ∧
    Storage.metadata stUndecodable [] = Outcome.panics unwrapPanicMsg ∧
    Storage.list stUndecodable [] = Outcome.panics unwrapPanicMsg ∧
    Storage.get stUndecodable [] 0 = Outcome.panics unwrapPanicMsg ∧
    Storage.cwd stUndecodable [] = Outcome.panics unwrapPanicMsg ∧
    Storage.find stUnopenable [] =
      Outcome.err ⟨ErrorKind.ioError, "No such file or directory"⟩ := by
  have h := (c10_undecodable_panics stUndecodable).1 rfl [] 0
  exact ⟨h.1, h.2.1, h.2.2.1, h.2.2.2.1, h.2.2.2.2,
    (c10_undecodable_panics stUnopenable).2 "No such file or directory" [] rfl⟩

end UnftpSbeIso
